import Mathlib

/-!
Shallow embedding of the forest-fire prediction backend
(`backend/grid.py`, `backend/weather.py`, `backend/model.py`,
`backend/main.py`) over exact rational arithmetic.

Modelling conventions, used throughout:

* Python floats are modelled as `ℚ`; `round(x, n)` is modelled by
  `roundTo n`, rounding to the nearest multiple of `10⁻ⁿ` (the claims under
  study never hinge on tie-breaking, where CPython rounds half to even).
* `max(lo, min(hi, x))` is `clampQ lo hi x`.
* `math.cos(math.radians(x))` is an uninterpreted parameter
  `cosD : ℚ → ℚ`; theorems that need facts about the cosine take them as
  hypotheses (e.g. `1/2 ≤ cosD x ≤ 1` on the latitude band `|x| ≤ 45`,
  true of the real cosine since `cos 45° ≈ 0.707`).
* `x ** 0.5` is an uninterpreted parameter `sq : ℚ → ℚ`.
* The `random` module is modelled by an explicit state `RandState`
  (current seed and number of draws made since seeding) together with an
  uninterpreted family `sample : ℤ → ℕ → ℚ` giving the i-th raw
  `random.random()` output after `random.seed s`; `random.uniform a b`
  is `a + (b - a) * sample s i`.  Python's builtin `hash` on strings is
  an uninterpreted `hash : String → ℤ`, fixed for a process session.
* Python dicts that always carry the same keys become structures; the
  defensive `dict.get(k, default)` reads in `model.py` become `Option`
  fields read with `Option.getD`.
-/

/-- Python `max(lo, min(hi, x))`. -/
def clampQ (lo hi x : ℚ) : ℚ := max lo (min hi x)

/-- Python `round(x, n)`: round to the nearest multiple of `10⁻ⁿ`. -/
def roundTo (n : ℕ) (x : ℚ) : ℚ := (round (x * (10 : ℚ) ^ n) : ℚ) / (10 : ℚ) ^ n

/-! ## grid.py -/

/-- A bounding box, `{"north": .., "south": .., "east": .., "west": ..}`. -/
structure Bounds where
  north : ℚ
  south : ℚ
  east : ℚ
  west : ℚ
deriving DecidableEq, Repr

/-- `ForestRegion` dataclass (grid.py lines 24-34). -/
structure ForestRegion where
  id : String
  name : String
  descr : String
  center_lat : ℚ
  center_lng : ℚ
  bounds : Bounds
  grid_rows : ℕ := 3
  grid_cols : ℕ := 4
deriving DecidableEq, Repr

/-- The `"amazon"` entry of `FOREST_REGIONS`. -/
def amazonRegion : ForestRegion :=
  { id := "amazon", name := "Amazon Rainforest",
    descr := "Brazil - World's largest tropical rainforest",
    center_lat := -3.4653, center_lng := -62.2159,
    bounds := { north := -2, south := -5, east := -60, west := -65 } }

/-- The `"california"` entry of `FOREST_REGIONS`. -/
def californiaRegion : ForestRegion :=
  { id := "california", name := "California Forests",
    descr := "USA - Sierra Nevada and coastal forests",
    center_lat := 37.5, center_lng := -119.5,
    bounds := { north := 39, south := 36, east := -118, west := -121 } }

/-- The `"australia"` entry of `FOREST_REGIONS`. -/
def australiaRegion : ForestRegion :=
  { id := "australia", name := "Australian Bushland",
    descr := "Australia - Eastern forest regions",
    center_lat := -33.5, center_lng := 150.5,
    bounds := { north := -32, south := -35, east := 152, west := 149 } }

/-- The `"mediterranean"` entry of `FOREST_REGIONS`. -/
def mediterraneanRegion : ForestRegion :=
  { id := "mediterranean", name := "Mediterranean Forests",
    descr := "Southern Europe - Portugal, Spain, Greece",
    center_lat := 38.5, center_lng := -8,
    bounds := { north := 40, south := 37, east := -6, west := -10 } }

/-- `FOREST_REGIONS` (grid.py lines 37-70), as an association list. -/
def FOREST_REGIONS : List (String × ForestRegion) :=
  [("amazon", amazonRegion), ("california", californiaRegion),
   ("australia", australiaRegion), ("mediterranean", mediterraneanRegion)]

/-- `calculate_grid_area` (grid.py lines 72-79); `cosD` stands for
`math.cos(math.radians ·)`. -/
def calculate_grid_area (cosD : ℚ → ℚ) (b : Bounds) : ℚ :=
  let lat_diff := |b.north - b.south|
  let lng_diff := |b.east - b.west|
  let avg_lat := (b.north + b.south) / 2
  let km_per_lng := 111 * cosD avg_lat
  lat_diff * 111 * lng_diff * km_per_lng

/-- `GridCell` dataclass (grid.py lines 12-22). -/
structure GridCell where
  id : String
  region : String
  row : ℕ
  col : ℕ
  center_lat : ℚ
  center_lng : ℚ
  bounds : Bounds
  area_km2 : ℚ
deriving DecidableEq, Repr

/-- Latitude step of a region's grid (grid.py line 100). -/
def latStep (r : ForestRegion) : ℚ :=
  (r.bounds.north - r.bounds.south) / r.grid_rows

/-- Longitude step of a region's grid (grid.py line 101). -/
def lngStep (r : ForestRegion) : ℚ :=
  (r.bounds.east - r.bounds.west) / r.grid_cols

/-- Body of the double loop of `generate_grids_for_region`
(grid.py lines 103-136): the cell at row `row`, column `col`. -/
def cellOf (cosD : ℚ → ℚ) (region_id : String) (r : ForestRegion)
    (row col : ℕ) : GridCell :=
  let north := r.bounds.north - row * latStep r
  let south := north - latStep r
  let west := r.bounds.west + col * lngStep r
  let east := west + lngStep r
  let cell_bounds : Bounds := { north := north, south := south, east := east, west := west }
  { id := region_id ++ "_grid_" ++ toString row ++ "_" ++ toString col,
    region := region_id,
    row := row, col := col,
    center_lat := (north + south) / 2,
    center_lng := (east + west) / 2,
    bounds := cell_bounds,
    area_km2 := roundTo 2 (calculate_grid_area cosD cell_bounds) }

/-- The double loop of `generate_grids_for_region` (grid.py lines 103-136):
rows outer, columns inner, results appended in order (row-major). -/
def gridsOf (cosD : ℚ → ℚ) (region_id : String) (r : ForestRegion) :
    List GridCell :=
  (List.range r.grid_rows).flatMap fun row =>
    (List.range r.grid_cols).map fun col => cellOf cosD region_id r row col

/-- Error taxonomy of the API layer: `ValueError`/404 for an unregistered
region id, 404 for a grid id that does not exist in a region. -/
inductive ApiError where
  | UnknownRegion (id : String)
  | GridNotFound (id : String)
deriving DecidableEq, Repr

/-- `generate_grids_for_region` (grid.py lines 81-138): raising
`ValueError("Unknown region: ...")` becomes returning `.error`. -/
def generate_grids_for_region (cosD : ℚ → ℚ) (region_id : String) :
    Except ApiError (List GridCell) :=
  match FOREST_REGIONS.lookup region_id with
  | none => .error (.UnknownRegion region_id)
  | some r => .ok (gridsOf cosD region_id r)

/-! ## weather.py -/

/-- A weather dict as produced by the two acquisition paths
(weather.py lines 57-64 and 97-104): the four primary fields plus the
provenance tag.  The free-text description field is presentation-only and
omitted. -/
structure Observation where
  temperature : ℚ
  humidity : ℚ
  wind_speed : ℚ
  rainfall : ℚ
  source : String
deriving DecidableEq, Repr

/-- State of the global `random` module: the seed last passed to
`random.seed` and the number of draws made since. -/
structure RandState where
  seedVal : ℤ
  pos : ℕ
deriving DecidableEq, Repr

/-- `random.uniform a b` as a pure function of the seed and the draw
index: `a + (b - a) * random.random()`. -/
def randUniform (sample : ℤ → ℕ → ℚ) (a b : ℚ) (s : ℤ) (i : ℕ) : ℚ :=
  a + (b - a) * sample s i

/-- `seed = hash(grid_id) % 10000` (weather.py line 78); Python `%` with a
positive modulus is `Int.emod`. -/
def simSeed (hash : String → ℤ) (grid_id : String) : ℤ :=
  hash grid_id % 10000

/-- Unrounded clamped simulated temperature (weather.py lines 81-87);
draw index 0 is the `uniform(-5, 10)` jitter. -/
def simTemperatureRaw (hash : String → ℤ) (sample : ℤ → ℕ → ℚ)
    (lat : ℚ) (grid_id : String) : ℚ :=
  let lat_factor := 1 - |lat| / 90
  let base_temp := 20 + lat_factor * 20
  clampQ 15 45 (base_temp + randUniform sample (-5) 10 (simSeed hash grid_id) 0)

/-- Unrounded clamped simulated humidity (weather.py lines 89-91);
draw index 1 is the `uniform(-10, 10)` jitter. -/
def simHumidityRaw (hash : String → ℤ) (sample : ℤ → ℕ → ℚ)
    (lat : ℚ) (grid_id : String) : ℚ :=
  clampQ 20 95 (90 - (simTemperatureRaw hash sample lat grid_id - 20) * 2 +
    randUniform sample (-10) 10 (simSeed hash grid_id) 1)

/-- Unrounded simulated wind speed, `uniform(5, 25)` at draw index 2
(weather.py line 94). -/
def simWindRaw (hash : String → ℤ) (sample : ℤ → ℕ → ℚ)
    (grid_id : String) : ℚ :=
  randUniform sample 5 25 (simSeed hash grid_id) 2

/-- Unrounded simulated rainfall (weather.py line 95): `uniform(0, 5)` at
draw index 3 when the unrounded humidity exceeds 60, else 0 (no draw). -/
def simRainfallRaw (hash : String → ℤ) (sample : ℤ → ℕ → ℚ)
    (lat : ℚ) (grid_id : String) : ℚ :=
  if simHumidityRaw hash sample lat grid_id > 60 then
    randUniform sample 0 5 (simSeed hash grid_id) 3
  else 0

/-- `generate_simulated_weather` (weather.py lines 72-104).  The function
reseeds the global generator from the grid id before drawing, so the
returned observation is computed from the seed-indexed draws 0-3 alone;
the incoming generator state is discarded and the outgoing state records
the reseed plus the three or four draws consumed. -/
def generate_simulated_weather (hash : String → ℤ) (sample : ℤ → ℕ → ℚ)
    (lat _lng : ℚ) (grid_id : String) (_σ : RandState) :
    Observation × RandState :=
  ({ temperature := roundTo 1 (simTemperatureRaw hash sample lat grid_id),
     humidity := roundTo 1 (simHumidityRaw hash sample lat grid_id),
     wind_speed := roundTo 1 (simWindRaw hash sample grid_id),
     rainfall := roundTo 1 (simRainfallRaw hash sample lat grid_id),
     source := "simulated" },
   { seedVal := simSeed hash grid_id,
     pos := if simHumidityRaw hash sample lat grid_id > 60 then 4 else 3 })

/-- The six derived indices (weather.py lines 139-146). -/
structure Indices where
  ffmc : ℚ
  dmc : ℚ
  dc : ℚ
  isi : ℚ
  bui : ℚ
  fwi : ℚ
deriving DecidableEq, Repr

/-- Unrounded clamped FFMC (weather.py lines 119-122). -/
def ffmcRaw (o : Observation) : ℚ :=
  let ffmc_base := 60 + (o.temperature - 25) * 1.5 - (o.humidity - 50) * 0.3
  clampQ 40 96 (ffmc_base - o.rainfall * 3)

/-- Unrounded clamped DMC (weather.py line 125). -/
def dmcRaw (o : Observation) : ℚ :=
  clampQ 1 30 (10 + (o.temperature - 25) * 0.5 - o.humidity * 0.1)

/-- Unrounded clamped DC (weather.py line 128). -/
def dcRaw (o : Observation) : ℚ :=
  clampQ 5 400 (150 + (o.temperature - 25) * 5 - o.rainfall * 10)

/-- Unrounded clamped ISI (weather.py line 131), computed from the
clamped FFMC. -/
def isiRaw (o : Observation) : ℚ :=
  clampQ 0 15 ((ffmcRaw o - 60) * 0.15 + o.wind_speed * 0.2)

/-- Unrounded clamped BUI (weather.py line 134), computed from the
clamped DMC and DC. -/
def buiRaw (o : Observation) : ℚ :=
  clampQ 1 40 (dmcRaw o * 0.8 + dcRaw o * 0.02)

/-- Unrounded clamped FWI (weather.py line 137): the square root
(`sq`, modelling `** 0.5`) of clamped ISI times clamped BUI, clamped. -/
def fwiRaw (sq : ℚ → ℚ) (o : Observation) : ℚ :=
  clampQ 0 25 (sq (isiRaw o * buiRaw o))

/-- `generate_fire_weather_indices` (weather.py lines 106-146). -/
def generate_fire_weather_indices (sq : ℚ → ℚ) (o : Observation) : Indices :=
  { ffmc := roundTo 1 (ffmcRaw o),
    dmc := roundTo 1 (dmcRaw o),
    dc := roundTo 1 (dcRaw o),
    isi := roundTo 1 (isiRaw o),
    bui := roundTo 1 (buiRaw o),
    fwi := roundTo 1 (fwiRaw sq o) }

/-- `get_weather_for_grid` (weather.py lines 148-169).  The live-API
fetch (an external HTTP collaborator) is modelled by its outcome
`live : Option Observation`; `none` is any of the documented failure
modes (missing key, error status, exception), in which case the
simulation is used.  The returned pair is the merged weather + indices
dict (its `lat`/`lng`/`grid_id` echo fields are the call's own arguments
and are omitted). -/
def get_weather_for_grid (sq : ℚ → ℚ) (hash : String → ℤ)
    (sample : ℤ → ℕ → ℚ) (live : Option Observation) (lat lng : ℚ)
    (grid_id : String) (σ : RandState) :
    (Observation × Indices) × RandState :=
  match live with
  | some w => ((w, generate_fire_weather_indices sq w), σ)
  | none =>
    let r := generate_simulated_weather hash sample lat lng grid_id σ
    ((r.1, generate_fire_weather_indices sq r.1), r.2)

/-! ## model.py -/

/-- A weather dict as read by `model.py`: every access there is a
defensive `weather_data.get(key, default)`, so fields are `Option`s. -/
structure WeatherData where
  temperature : Option ℚ
  humidity : Option ℚ
  wind_speed : Option ℚ
  rainfall : Option ℚ
  ffmc : Option ℚ
  dmc : Option ℚ
  dc : Option ℚ
  isi : Option ℚ
  bui : Option ℚ
  fwi : Option ℚ
deriving DecidableEq, Repr

/-- The merged weather + indices dict handed by `main.py` to
`model.predict`: every key is present. -/
def toWeatherData (o : Observation) (i : Indices) : WeatherData :=
  { temperature := some o.temperature, humidity := some o.humidity,
    wind_speed := some o.wind_speed, rainfall := some o.rainfall,
    ffmc := some i.ffmc, dmc := some i.dmc, dc := some i.dc,
    isi := some i.isi, bui := some i.bui, fwi := some i.fwi }

/-- `FEATURE_COLUMNS` (model.py line 21). -/
def FEATURE_COLUMNS : List String :=
  ["Temperature", "RH", "Ws", "Rain", "FFMC", "DMC", "DC", "ISI", "BUI", "FWI"]

/-- `RISK_THRESHOLDS['low']` (model.py line 39). -/
def RISK_THRESHOLDS_low : ℚ × ℚ := (0, 33)

/-- `RISK_THRESHOLDS['medium']` (model.py line 40). -/
def RISK_THRESHOLDS_medium : ℚ × ℚ := (34, 66)

/-- `RISK_THRESHOLDS['high']` (model.py line 41). -/
def RISK_THRESHOLDS_high : ℚ × ℚ := (67, 100)

/-- `FireRiskModel._calculate_fallback_risk` (model.py lines 97-116). -/
def calculate_fallback_risk (w : WeatherData) : ℚ :=
  let temp := w.temperature.getD 25
  let humidity := w.humidity.getD 50
  let wind := w.wind_speed.getD 10
  let rain := w.rainfall.getD 0
  let fwi := w.fwi.getD 10
  let risk := (temp - 20) * 2 + (80 - humidity) * 0.5 + wind * 1.5 + fwi * 3 - rain * 10
  clampQ 0 100 risk

/-- The hard-coded fallback feature-importance dict
(model.py lines 149-152). -/
def fallbackImportance : List (String × ℚ) :=
  [("Temperature", 0.18), ("RH", 0.15), ("Ws", 0.12), ("Rain", 0.10),
   ("FFMC", 0.15), ("DMC", 0.08), ("DC", 0.07), ("ISI", 0.06),
   ("BUI", 0.05), ("FWI", 0.04)]

/-- The dict returned by `FireRiskModel.predict` (model.py lines 163-169). -/
structure Prediction where
  risk_score : ℚ
  risk_category : String
  probability : ℚ
  feature_importance : List (String × ℚ)
  model_type : String
deriving DecidableEq, Repr

/-- `FireRiskModel.predict` (model.py lines 118-169).  The trained
classifier pipeline of model mode (`_weather_to_features`, the scaler,
`predict_proba`, `feature_importances_`) is an external, opaque artifact;
it is modelled by the positive-class probability `proba` and the
importance list `imps`.  `is_loaded` is fixed at process start. -/
def predict (is_loaded : Bool) (proba : WeatherData → ℚ)
    (imps : List (String × ℚ)) (w : WeatherData) : Prediction :=
  let triple : ℚ × ℚ × List (String × ℚ) :=
    if is_loaded then
      let fire_probability := proba w
      (fire_probability * 100, fire_probability, imps)
    else
      let risk := calculate_fallback_risk w
      (risk, risk / 100, fallbackImportance)
  let risk_score := roundTo 1 triple.1
  let category :=
    if risk_score ≤ RISK_THRESHOLDS_low.2 then "Low"
    else if risk_score ≤ RISK_THRESHOLDS_medium.2 then "Medium"
    else "High"
  { risk_score := risk_score,
    risk_category := category,
    probability := roundTo 4 triple.2.1,
    feature_importance := triple.2.2.map fun kv => (kv.1, roundTo 4 kv.2),
    model_type := if is_loaded then "Random Forest" else "Rule-based Fallback" }

/-- One contributing factor of `explain_prediction`: its name and
severity tag (the formatted value string and the fixed description
sentence are presentation-only and omitted). -/
structure Factor where
  factor : String
  impact : String
deriving DecidableEq, Repr

/-- Temperature block of `explain_prediction` (model.py lines 180-195). -/
def tempFactors (w : WeatherData) : List Factor :=
  let temp := w.temperature.getD 25
  if temp > 35 then [{ factor := "High Temperature", impact := "critical" }]
  else if temp > 30 then [{ factor := "Elevated Temperature", impact := "high" }]
  else []

/-- Humidity block of `explain_prediction` (model.py lines 197-212). -/
def humidityFactors (w : WeatherData) : List Factor :=
  let humidity := w.humidity.getD 50
  if humidity < 30 then [{ factor := "Very Low Humidity", impact := "critical" }]
  else if humidity < 50 then [{ factor := "Low Humidity", impact := "moderate" }]
  else []

/-- Wind block of `explain_prediction` (model.py lines 214-229). -/
def windFactors (w : WeatherData) : List Factor :=
  let wind := w.wind_speed.getD 10
  if wind > 20 then [{ factor := "High Wind Speed", impact := "critical" }]
  else if wind > 15 then [{ factor := "Moderate Wind", impact := "moderate" }]
  else []

/-- Rainfall block of `explain_prediction` (model.py lines 231-246). -/
def rainFactors (w : WeatherData) : List Factor :=
  let rain := w.rainfall.getD 0
  if rain > 5 then [{ factor := "Recent Rainfall", impact := "protective" }]
  else if rain < 1 then [{ factor := "No Recent Rain", impact := "moderate" }]
  else []

/-- FWI block of `explain_prediction` (model.py lines 248-256). -/
def fwiFactors (w : WeatherData) : List Factor :=
  let fwi := w.fwi.getD 10
  if fwi > 15 then [{ factor := "High Fire Weather Index", impact := "critical" }]
  else []

/-- The `factors` list built by `FireRiskModel.explain_prediction`
(model.py lines 177-256): the five rule blocks evaluated independently,
appended in source order. -/
def contributingFactors (w : WeatherData) : List Factor :=
  tempFactors w ++ humidityFactors w ++ windFactors w ++ rainFactors w ++ fwiFactors w

/-- `FireRiskModel._generate_summary` (model.py lines 264-273), with the
leading emoji glyphs elided. -/
def generate_summary (category : String) (factors : List Factor) : String :=
  let critical_count := (factors.filter fun f => f.impact == "critical").length
  if category == "High" then
    "HIGH RISK: " ++ toString critical_count ++
      " critical factors detected. Immediate preventive action recommended."
  else if category == "Medium" then
    "MEDIUM RISK: Moderate fire conditions present. Enhanced monitoring advised."
  else
    "LOW RISK: Current conditions are favorable. Standard monitoring sufficient."

/-! ## main.py -/

/-- The per-cell dict assembled inside `predict_for_grid`
(main.py lines 159-171); the nested weather payload is represented by
the fields the summary later reads (`source`) plus the scoring outputs. -/
structure CellPrediction where
  grid_id : String
  row : ℕ
  col : ℕ
  risk_score : ℚ
  risk_category : String
  probability : ℚ
  source : String
  model_type : String
deriving DecidableEq, Repr

/-- The `summary` dict of `predict_fire_risk` (main.py lines 185-200). -/
structure Summary where
  total_grids : ℕ
  average_risk : ℚ
  max_risk : ℚ
  min_risk : ℚ
  high_risk_count : ℕ
  medium_risk_count : ℕ
  low_risk_count : ℕ
  real_count : ℕ
  simulated_count : ℕ
  alert_level : String
deriving DecidableEq, Repr

/-- Python `max(xs)` for a nonempty list (empty input raises in Python;
the callers always pass `rows × cols ≥ 1` scores). -/
def pyMax (xs : List ℚ) : ℚ :=
  match xs with
  | [] => 0
  | x :: rest => rest.foldl max x

/-- Python `min(xs)` for a nonempty list. -/
def pyMin (xs : List ℚ) : ℚ :=
  match xs with
  | [] => 0
  | x :: rest => rest.foldl min x

/-- The summary computation of `predict_fire_risk`
(main.py lines 176-200). -/
def computeSummary (preds : List CellPrediction) : Summary :=
  let risk_scores := preds.map (·.risk_score)
  let categories := preds.map (·.risk_category)
  let sources := preds.map (·.source)
  { total_grids := preds.length,
    average_risk := roundTo 1 (risk_scores.sum / preds.length),
    max_risk := roundTo 1 (pyMax risk_scores),
    min_risk := roundTo 1 (pyMin risk_scores),
    high_risk_count := categories.count "High",
    medium_risk_count := categories.count "Medium",
    low_risk_count := categories.count "Low",
    real_count := sources.count "openweather_api",
    simulated_count := sources.count "simulated",
    alert_level :=
      if 3 ≤ categories.count "High" then "CRITICAL"
      else if 1 ≤ categories.count "High" then "WARNING"
      else "NORMAL" }

/-- `predict_for_grid` (main.py lines 148-171) for one cell: fetch the
(live or simulated) weather, score it, and assemble the per-cell result.
Each `asyncio.gather` task reseeds the global generator from its own
grid id before drawing, so every task starts from the same observable
state `σ`. -/
def predict_for_grid (sq : ℚ → ℚ) (hash : String → ℤ)
    (sample : ℤ → ℕ → ℚ) (live : ℚ → ℚ → Option Observation)
    (is_loaded : Bool) (proba : WeatherData → ℚ) (imps : List (String × ℚ))
    (σ : RandState) (g : GridCell) : CellPrediction :=
  let wi := (get_weather_for_grid sq hash sample (live g.center_lat g.center_lng)
    g.center_lat g.center_lng g.id σ).1
  let p := predict is_loaded proba imps (toWeatherData wi.1 wi.2)
  { grid_id := g.id, row := g.row, col := g.col,
    risk_score := p.risk_score, risk_category := p.risk_category,
    probability := p.probability, source := wi.1.source,
    model_type := p.model_type }

/-- The successful response body of `POST /api/predict`
(main.py lines 202-208). -/
structure PredictResponse where
  region_id : String
  region_name : String
  grids : List CellPrediction
  summary : Summary
deriving DecidableEq, Repr

/-- `predict_fire_risk` (main.py lines 113-208).  Besides the
`Except`-modelled 404, the second component is the audit trace of
per-cell work: the ids of the cells for which weather acquisition and
scoring were performed (empty when the region check fails, one entry per
grid cell otherwise). -/
def predict_fire_risk (cosD sq : ℚ → ℚ) (hash : String → ℤ)
    (sample : ℤ → ℕ → ℚ) (live : ℚ → ℚ → Option Observation)
    (is_loaded : Bool) (proba : WeatherData → ℚ) (imps : List (String × ℚ))
    (region_id : String) (σ : RandState) :
    Except ApiError PredictResponse × List String :=
  match FOREST_REGIONS.lookup region_id with
  | none => (.error (.UnknownRegion region_id), [])
  | some region =>
    let grids := gridsOf cosD region_id region
    let preds := grids.map
      (predict_for_grid sq hash sample live is_loaded proba imps σ)
    (.ok { region_id := region_id, region_name := region.name,
           grids := preds, summary := computeSummary preds },
     grids.map (·.id))

/-! ## Arithmetic helper lemmas -/

/-- The lower clamp bound always holds. -/
lemma le_clampQ (lo hi x : ℚ) : lo ≤ clampQ lo hi x := le_max_left _ _

/-- The upper clamp bound holds when the interval is nonempty. -/
lemma clampQ_le {lo hi : ℚ} (x : ℚ) (h : lo ≤ hi) : clampQ lo hi x ≤ hi :=
  max_le h (min_le_left _ _)

/-- `roundTo n` is monotone. -/
lemma roundTo_mono (n : ℕ) {x y : ℚ} (h : x ≤ y) : roundTo n x ≤ roundTo n y := by
  unfold roundTo
  have h10 : (0 : ℚ) < (10 : ℚ) ^ n := by positivity
  have hr : round (x * (10 : ℚ) ^ n) ≤ round (y * (10 : ℚ) ^ n) := by
    rw [round_eq, round_eq]
    have hxy : x * (10 : ℚ) ^ n + 1 / 2 ≤ y * (10 : ℚ) ^ n + 1 / 2 := by nlinarith
    exact Int.floor_le_floor hxy
  exact (div_le_div_iff_of_pos_right h10).mpr (by exact_mod_cast hr)

/-- `roundTo n` fixes integers. -/
lemma roundTo_intCast (n : ℕ) (a : ℤ) : roundTo n (a : ℚ) = a := by
  unfold roundTo
  have hcast : ((a : ℚ) * (10 : ℚ) ^ n) = ((a * 10 ^ n : ℤ) : ℚ) := by push_cast; ring
  have h10 : ((10 : ℚ) ^ n) ≠ 0 := by positivity
  rw [hcast, round_intCast]
  push_cast
  field_simp

/-- Rounding keeps a value inside an interval with integer endpoints. -/
lemma roundTo_int_bounds (n : ℕ) (a b : ℤ) {x : ℚ} (ha : (a : ℚ) ≤ x)
    (hb : x ≤ (b : ℚ)) : (a : ℚ) ≤ roundTo n x ∧ roundTo n x ≤ (b : ℚ) := by
  constructor
  · have h := roundTo_mono n ha
    rwa [roundTo_intCast] at h
  · have h := roundTo_mono n hb
    rwa [roundTo_intCast] at h

/-- `roundTo n` moves a value by at most half a unit in the last place. -/
lemma abs_roundTo_sub (n : ℕ) (x : ℚ) :
    |roundTo n x - x| ≤ 1 / (2 * (10 : ℚ) ^ n) := by
  unfold roundTo
  have h10 : (0 : ℚ) < (10 : ℚ) ^ n := by positivity
  have h := abs_sub_round (x * (10 : ℚ) ^ n)
  have hrw : (round (x * (10 : ℚ) ^ n) : ℚ) / (10 : ℚ) ^ n - x =
      -((x * (10 : ℚ) ^ n - (round (x * (10 : ℚ) ^ n) : ℚ)) / (10 : ℚ) ^ n) := by
    field_simp
    ring
  rw [hrw, abs_neg, abs_div, abs_of_pos h10]
  rw [div_le_div_iff₀ (by positivity) (by positivity)]
  calc |x * (10 : ℚ) ^ n - (round (x * (10 : ℚ) ^ n) : ℚ)| * (2 * (10 : ℚ) ^ n)
      ≤ (1 / 2) * (2 * (10 : ℚ) ^ n) := by
        have h2 : (0 : ℚ) < 2 * (10 : ℚ) ^ n := by positivity
        exact mul_le_mul_of_nonneg_right h (le_of_lt h2)
    _ = 1 * (10 : ℚ) ^ n := by ring

/-- Upper deviation of rounding. -/
lemma roundTo_le_add (n : ℕ) (x : ℚ) : roundTo n x ≤ x + 1 / (2 * (10 : ℚ) ^ n) := by
  have h := abs_roundTo_sub n x
  have h2 := (abs_le.mp h).2
  linarith

/-- Lower deviation of rounding. -/
lemma sub_le_roundTo (n : ℕ) (x : ℚ) : x - 1 / (2 * (10 : ℚ) ^ n) ≤ roundTo n x := by
  have h := abs_roundTo_sub n x
  have h1 := (abs_le.mp h).1
  linarith

/-! ## Claim C1 -/

/-- The example input of the spec's end-to-end property: temp=40,
humidity=20, wind=25, rain=0, fwi=20. -/
def exampleWeather40 : WeatherData :=
  { temperature := some 40, humidity := some 20, wind_speed := some 25,
    rainfall := some 0, ffmc := none, dmc := none, dc := none,
    isi := none, bui := none, fwi := some 20 }

/-- C1: in fallback mode (`is_loaded = false`, no model artifacts), for
every weather input the risk score is
`(temp−20)·2 + (80−humidity)·0.5 + wind·1.5 + fwi·3 − rain·10` clamped to
`[0, 100]` and rounded to one decimal, the probability is the clamped
risk divided by 100 and rounded to four decimals, and the prediction
carries the fallback scorer-mode tag; in particular temp=40, humidity=20,
wind=25, rain=0, fwi=20 gives score 100 and category High. -/
theorem c1_fallback_mode_formula (proba : WeatherData → ℚ)
    (imps : List (String × ℚ)) (t h wi ra fw : ℚ)
    (f1 f2 f3 f4 f5 : Option ℚ) :
    let w : WeatherData :=
      { temperature := some t, humidity := some h, wind_speed := some wi,
        rainfall := some ra, ffmc := f1, dmc := f2, dc := f3, isi := f4,
        bui := f5, fwi := some fw }
    let risk := clampQ 0 100 ((t - 20) * 2 + (80 - h) * 0.5 + wi * 1.5 + fw * 3 - ra * 10)
    (predict false proba imps w).risk_score = roundTo 1 risk ∧
    (predict false proba imps w).probability = roundTo 4 (risk / 100) ∧
    (predict false proba imps w).model_type = "Rule-based Fallback" ∧
    (predict false proba imps exampleWeather40).risk_score = 100 ∧
    (predict false proba imps exampleWeather40).risk_category = "High" := by
  intro w risk
  have h1 : (predict false proba imps exampleWeather40).risk_score =
      roundTo 1 (calculate_fallback_risk exampleWeather40) := rfl
  have h2 : (predict false proba imps exampleWeather40).risk_category =
      (if roundTo 1 (calculate_fallback_risk exampleWeather40) ≤ RISK_THRESHOLDS_low.2
        then "Low"
        else if roundTo 1 (calculate_fallback_risk exampleWeather40) ≤ RISK_THRESHOLDS_medium.2
        then "Medium" else "High") := rfl
  have hval : calculate_fallback_risk exampleWeather40 = 100 := by
    norm_num [calculate_fallback_risk, exampleWeather40, clampQ, max_def, min_def]
  have hscore : roundTo 1 (calculate_fallback_risk exampleWeather40) = 100 := by
    rw [hval]
    simpa using roundTo_intCast 1 100
  refine ⟨rfl, rfl, rfl, ?_, ?_⟩
  · rw [h1, hscore]
  · rw [h2, hscore]
    norm_num [RISK_THRESHOLDS_low, RISK_THRESHOLDS_medium]

/-! ## Claim C5 -/

/-- C5: with the live weather service unavailable, two calls of the
weather provider for the same cell identifier (and coordinate) within
one process session — i.e. with the same session-fixed `hash` and
`sample` but arbitrary, possibly different, incoming generator states —
return identical simulated observations (and identical derived indices),
because the simulator reseeds the generator from the deterministic,
non-time-based seed `hash(grid_id) % 10000` before drawing. -/
theorem c5_simulated_weather_deterministic (sq : ℚ → ℚ)
    (hash : String → ℤ) (sample : ℤ → ℕ → ℚ) (lat lng : ℚ)
    (grid_id : String) (σ1 σ2 : RandState) :
    (get_weather_for_grid sq hash sample none lat lng grid_id σ1).1 =
      (get_weather_for_grid sq hash sample none lat lng grid_id σ2).1 ∧
    ((get_weather_for_grid sq hash sample none lat lng grid_id σ1).1).1.source =
      "simulated" :=
  ⟨rfl, rfl⟩

/-! ## Claim C7 -/

/-- C7: requesting predictions for a region id that is not in the
registry fails with `UnknownRegion` and the per-cell work trace is
empty: no weather acquisition, index derivation or scoring happens for
any cell, and no partial results are produced. -/
theorem c7_unknown_region_no_work (cosD sq : ℚ → ℚ) (hash : String → ℤ)
    (sample : ℤ → ℕ → ℚ) (live : ℚ → ℚ → Option Observation)
    (is_loaded : Bool) (proba : WeatherData → ℚ) (imps : List (String × ℚ))
    (region_id : String) (σ : RandState)
    (h : FOREST_REGIONS.lookup region_id = none) :
    predict_fire_risk cosD sq hash sample live is_loaded proba imps region_id σ =
      (.error (.UnknownRegion region_id), []) := by
  unfold predict_fire_risk
  rw [h]

/-- Witness for C7 at the concrete unregistered id `"atlantis"`. -/
theorem c7_unknown_region_no_work_witness :
    predict_fire_risk (fun _ => 1) (fun _ => 1) (fun _ => 0)
      (fun _ _ => 1 / 2) (fun _ _ => none) false (fun _ => 0) []
      "atlantis" { seedVal := 0, pos := 0 } =
      (.error (.UnknownRegion "atlantis"), []) :=
  c7_unknown_region_no_work (fun _ => 1) (fun _ => 1) (fun _ => 0)
    (fun _ _ => 1 / 2) (fun _ _ => none) false (fun _ => 0) []
    "atlantis" { seedVal := 0, pos := 0 } (by decide)

/-! ## Claim C6 -/

/-- A per-cell result carrying only a category, for the spec's 12-cell
aggregation example. -/
def cellWithCategory (c : String) : CellPrediction :=
  { grid_id := "x", row := 0, col := 0, risk_score := 50,
    risk_category := c, probability := 1 / 2, source := "simulated",
    model_type := "Rule-based Fallback" }

/-- The spec's example region pass: 12 cells, 3 High, 2 Medium, 7 Low. -/
def exampleTwelveCells : List CellPrediction :=
  [cellWithCategory "High", cellWithCategory "High", cellWithCategory "High",
   cellWithCategory "Medium", cellWithCategory "Medium",
   cellWithCategory "Low", cellWithCategory "Low", cellWithCategory "Low",
   cellWithCategory "Low", cellWithCategory "Low", cellWithCategory "Low",
   cellWithCategory "Low"]

/-- C6: the region summary's alert level is CRITICAL iff at least 3 cells
are High, WARNING iff exactly 1 or 2 are, NORMAL iff none is, and
`high_risk_count` is the number of High cells; the 12-cell example with
3 High, 2 Medium, 7 Low yields CRITICAL with `high_risk_count = 3`. -/
theorem c6_alert_level_thresholds (preds : List CellPrediction) :
    let hc := (preds.map (·.risk_category)).count "High"
    ((computeSummary preds).alert_level = "CRITICAL" ↔ 3 ≤ hc) ∧
    ((computeSummary preds).alert_level = "WARNING" ↔ (hc = 1 ∨ hc = 2)) ∧
    ((computeSummary preds).alert_level = "NORMAL" ↔ hc = 0) ∧
    (computeSummary preds).high_risk_count = hc ∧
    (computeSummary exampleTwelveCells).alert_level = "CRITICAL" ∧
    (computeSummary exampleTwelveCells).high_risk_count = 3 := by
  intro hc
  have halert : (computeSummary preds).alert_level =
      (if 3 ≤ hc then "CRITICAL" else if 1 ≤ hc then "WARNING" else "NORMAL") := rfl
  have hcount : (computeSummary preds).high_risk_count = hc := rfl
  refine ⟨?_, ?_, ?_, hcount, by decide, by decide⟩
  · rw [halert]
    by_cases h3 : 3 ≤ hc
    · simp [h3]
    · by_cases h1 : 1 ≤ hc <;> simp [h3, h1]
  · rw [halert]
    by_cases h3 : 3 ≤ hc
    · simp [h3]
      omega
    · by_cases h1 : 1 ≤ hc <;> simp [h3, h1] <;> omega
  · rw [halert]
    by_cases h3 : 3 ≤ hc
    · simp [h3]
      omega
    · by_cases h1 : 1 ≤ hc <;> simp [h3, h1] <;> omega

/-! ## Claim C2 -/

/-- Fallback-mode score, written out (definitional). -/
lemma fallback_score_eq (proba : WeatherData → ℚ) (imps : List (String × ℚ))
    (w : WeatherData) :
    (predict false proba imps w).risk_score =
      roundTo 1 (calculate_fallback_risk w) := rfl

/-- The category if-chain of `predict` (model.py lines 154-161),
written out (definitional). -/
lemma riskCategory_eq (is_loaded : Bool) (proba : WeatherData → ℚ)
    (imps : List (String × ℚ)) (w : WeatherData) :
    (predict is_loaded proba imps w).risk_category =
      (if (predict is_loaded proba imps w).risk_score ≤ 33 then "Low"
       else if (predict is_loaded proba imps w).risk_score ≤ 66 then "Medium"
       else "High") := rfl

/-- `roundTo` fixes any value that is already a multiple of `10⁻ⁿ`. -/
lemma roundTo_eq_self_of_int (n : ℕ) (a : ℤ) {x : ℚ}
    (h : x * (10 : ℚ) ^ n = (a : ℚ)) : roundTo n x = x := by
  unfold roundTo
  rw [h, round_intCast, ← h]
  have h10 : ((10 : ℚ) ^ n) ≠ 0 := by positivity
  field_simp

/-- A fallback input whose score is exactly `(t − 20) · 2`: humidity 80,
wind 0, rain 0, fwi 0. -/
def boundaryWeather (t : ℚ) : WeatherData :=
  { temperature := some t, humidity := some 80, wind_speed := some 0,
    rainfall := some 0, ffmc := none, dmc := none, dc := none,
    isi := none, bui := none, fwi := some 0 }

/-- A fallback input scoring exactly 66.5: temp 25, humidity 78, wind 7,
rain 0, fwi 15 give `10 + 1 + 10.5 + 45 = 66.5`. -/
def halfScoreWeather : WeatherData :=
  { temperature := some 25, humidity := some 78, wind_speed := some 7,
    rainfall := some 0, ffmc := none, dmc := none, dc := none,
    isi := none, bui := none, fwi := some 15 }

/-- C2 counterexample: the scorer can emit the one-decimal score 66.5,
which it categorizes High although 66.5 < 67 — refuting, at a concrete
input, the claim that the category is High if and only if the score is
at least 67 (and Medium if and only if it is between 34 and 66). -/
theorem c2_claim_counterexample :
    (predict false (fun _ => 0) [] halfScoreWeather).risk_category = "High" ∧
    (predict false (fun _ => 0) [] halfScoreWeather).risk_score = 133 / 2 ∧
    ¬ (67 : ℚ) ≤ 133 / 2 := by
  have hval : calculate_fallback_risk halfScoreWeather = 133 / 2 := by
    norm_num [calculate_fallback_risk, halfScoreWeather, clampQ, max_def, min_def]
  have hscore : (predict false (fun _ => 0) [] halfScoreWeather).risk_score = 133 / 2 := by
    rw [fallback_score_eq, hval]
    rw [roundTo_eq_self_of_int 1 665 (by norm_num)]
  refine ⟨?_, hscore, by norm_num⟩
  rw [riskCategory_eq, hscore]
  norm_num

/-- Evaluation of a fallback boundary example score. -/
lemma boundary_score_eq (proba : WeatherData → ℚ) (imps : List (String × ℚ))
    (t : ℚ) (a : ℤ) (hv : calculate_fallback_risk (boundaryWeather t) = (a : ℚ)) :
    (predict false proba imps (boundaryWeather t)).risk_score = (a : ℚ) := by
  rw [fallback_score_eq, hv, roundTo_intCast]

/-- C2 (amended): every score emitted by the scorer — fallback or model
mode, the latter assuming the classifier emits a probability in
`[0, 1]` — lies in `[0, 100]` after one-decimal rounding, and the
category of the rounded score `s` is Low iff `s ≤ 33`, Medium iff
`33 < s ≤ 66`, High iff `66 < s` (for integer scores this is exactly the
claimed 0–33/34–66/67–100 banding); the boundary examples hold:
score 33 → Low, 34 → Medium, 66 → Medium, 67 → High. -/
theorem c2_score_range_and_category (is_loaded : Bool)
    (proba : WeatherData → ℚ) (imps : List (String × ℚ)) (w : WeatherData)
    (hp : 0 ≤ proba w ∧ proba w ≤ 1) :
    (0 ≤ (predict is_loaded proba imps w).risk_score ∧
      (predict is_loaded proba imps w).risk_score ≤ 100) ∧
    ((predict is_loaded proba imps w).risk_category = "Low" ↔
      (predict is_loaded proba imps w).risk_score ≤ 33) ∧
    ((predict is_loaded proba imps w).risk_category = "Medium" ↔
      (33 < (predict is_loaded proba imps w).risk_score ∧
        (predict is_loaded proba imps w).risk_score ≤ 66)) ∧
    ((predict is_loaded proba imps w).risk_category = "High" ↔
      66 < (predict is_loaded proba imps w).risk_score) ∧
    ((predict false proba imps (boundaryWeather (73 / 2))).risk_score = 33 ∧
      (predict false proba imps (boundaryWeather (73 / 2))).risk_category = "Low") ∧
    ((predict false proba imps (boundaryWeather 37)).risk_score = 34 ∧
      (predict false proba imps (boundaryWeather 37)).risk_category = "Medium") ∧
    ((predict false proba imps (boundaryWeather 53)).risk_score = 66 ∧
      (predict false proba imps (boundaryWeather 53)).risk_category = "Medium") ∧
    ((predict false proba imps (boundaryWeather (107 / 2))).risk_score = 67 ∧
      (predict false proba imps (boundaryWeather (107 / 2))).risk_category = "High") := by
  have hrange : 0 ≤ (predict is_loaded proba imps w).risk_score ∧
      (predict is_loaded proba imps w).risk_score ≤ 100 := by
    cases is_loaded with
    | false =>
      have h0 : (predict false proba imps w).risk_score =
          roundTo 1 (calculate_fallback_risk w) := rfl
      rw [h0]
      have hlo : (0 : ℚ) ≤ calculate_fallback_risk w := le_clampQ 0 100 _
      have hhi : calculate_fallback_risk w ≤ 100 := clampQ_le _ (by norm_num)
      have := roundTo_int_bounds 1 0 100 (by exact_mod_cast hlo) (by exact_mod_cast hhi)
      exact ⟨by exact_mod_cast this.1, by exact_mod_cast this.2⟩
    | true =>
      have h0 : (predict true proba imps w).risk_score =
          roundTo 1 (proba w * 100) := rfl
      rw [h0]
      have hlo : (0 : ℚ) ≤ proba w * 100 := by nlinarith [hp.1]
      have hhi : proba w * 100 ≤ 100 := by nlinarith [hp.2]
      have := roundTo_int_bounds 1 0 100 (by exact_mod_cast hlo) (by exact_mod_cast hhi)
      exact ⟨by exact_mod_cast this.1, by exact_mod_cast this.2⟩
  have hcat := riskCategory_eq is_loaded proba imps w
  have hiffs : ((predict is_loaded proba imps w).risk_category = "Low" ↔
      (predict is_loaded proba imps w).risk_score ≤ 33) ∧
      ((predict is_loaded proba imps w).risk_category = "Medium" ↔
        (33 < (predict is_loaded proba imps w).risk_score ∧
          (predict is_loaded proba imps w).risk_score ≤ 66)) ∧
      ((predict is_loaded proba imps w).risk_category = "High" ↔
        66 < (predict is_loaded proba imps w).risk_score) := by
    rcases le_or_lt (predict is_loaded proba imps w).risk_score 33 with h33 | h33
    · rw [hcat]
      rw [if_pos h33]
      exact ⟨iff_of_true rfl h33,
        iff_of_false (by decide) (fun h => by linarith [h.1]),
        iff_of_false (by decide) (fun h => by linarith)⟩
    · rcases le_or_lt (predict is_loaded proba imps w).risk_score 66 with h66 | h66
      · rw [hcat]
        rw [if_neg (by linarith), if_pos h66]
        exact ⟨iff_of_false (by decide) (fun h => by linarith),
          iff_of_true rfl ⟨h33, h66⟩,
          iff_of_false (by decide) (fun h => by linarith)⟩
      · rw [hcat]
        rw [if_neg (by linarith), if_neg (by linarith)]
        exact ⟨iff_of_false (by decide) (fun h => by linarith),
          iff_of_false (by decide) (fun h => by linarith [h.2]),
          iff_of_true rfl h66⟩
  have hb1 : calculate_fallback_risk (boundaryWeather (73 / 2)) = ((33 : ℤ) : ℚ) := by
    norm_num [calculate_fallback_risk, boundaryWeather, clampQ, max_def, min_def]
  have hb2 : calculate_fallback_risk (boundaryWeather 37) = ((34 : ℤ) : ℚ) := by
    norm_num [calculate_fallback_risk, boundaryWeather, clampQ, max_def, min_def]
  have hb3 : calculate_fallback_risk (boundaryWeather 53) = ((66 : ℤ) : ℚ) := by
    norm_num [calculate_fallback_risk, boundaryWeather, clampQ, max_def, min_def]
  have hb4 : calculate_fallback_risk (boundaryWeather (107 / 2)) = ((67 : ℤ) : ℚ) := by
    norm_num [calculate_fallback_risk, boundaryWeather, clampQ, max_def, min_def]
  have e1 := boundary_score_eq proba imps (73 / 2) 33 hb1
  have e2 := boundary_score_eq proba imps 37 34 hb2
  have e3 := boundary_score_eq proba imps 53 66 hb3
  have e4 := boundary_score_eq proba imps (107 / 2) 67 hb4
  refine ⟨hrange, hiffs.1, hiffs.2.1, hiffs.2.2, ⟨by exact_mod_cast e1, ?_⟩,
    ⟨by exact_mod_cast e2, ?_⟩, ⟨by exact_mod_cast e3, ?_⟩,
    ⟨by exact_mod_cast e4, ?_⟩⟩
  · rw [riskCategory_eq, e1]; norm_num
  · rw [riskCategory_eq, e2]; norm_num
  · rw [riskCategory_eq, e3]; norm_num
  · rw [riskCategory_eq, e4]; norm_num

/-- Witness for C2 at a concrete mode, classifier and input. -/
theorem c2_score_range_and_category_witness :
    (0 ≤ (predict true (fun _ => 1 / 2) [] exampleWeather40).risk_score ∧
      (predict true (fun _ => 1 / 2) [] exampleWeather40).risk_score ≤ 100) ∧
    ((predict true (fun _ => 1 / 2) [] exampleWeather40).risk_category = "Low" ↔
      (predict true (fun _ => 1 / 2) [] exampleWeather40).risk_score ≤ 33) := by
  have h := c2_score_range_and_category true (fun _ => 1 / 2) [] exampleWeather40
    (by norm_num)
  exact ⟨h.1, h.2.1⟩

/-! ## Claim C8 -/

/-- Membership in the temperature rule block. -/
lemma mem_tempFactors (w : WeatherData) (f : Factor) :
    f ∈ tempFactors w ↔
      (f = { factor := "High Temperature", impact := "critical" } ∧
        35 < w.temperature.getD 25) ∨
      (f = { factor := "Elevated Temperature", impact := "high" } ∧
        30 < w.temperature.getD 25 ∧ w.temperature.getD 25 ≤ 35) := by
  unfold tempFactors
  by_cases h35 : w.temperature.getD 25 > 35
  · simp only [if_pos h35, List.mem_singleton]
    constructor
    · rintro rfl
      exact Or.inl ⟨rfl, h35⟩
    · rintro (⟨rfl, _⟩ | ⟨_, _, hle⟩)
      · rfl
      · linarith
  · by_cases h30 : w.temperature.getD 25 > 30
    · simp only [if_neg h35, if_pos h30, List.mem_singleton]
      constructor
      · rintro rfl
        exact Or.inr ⟨rfl, h30, by linarith⟩
      · rintro (⟨rfl, hgt⟩ | ⟨rfl, _, _⟩)
        · exact absurd hgt h35
        · rfl
    · simp only [if_neg h35, if_neg h30, List.not_mem_nil, false_iff]
      rintro (⟨_, hgt⟩ | ⟨_, hgt, _⟩)
      · exact h35 (by linarith)
      · exact h30 hgt

/-- Membership in the humidity rule block. -/
lemma mem_humidityFactors (w : WeatherData) (f : Factor) :
    f ∈ humidityFactors w ↔
      (f = { factor := "Very Low Humidity", impact := "critical" } ∧
        w.humidity.getD 50 < 30) ∨
      (f = { factor := "Low Humidity", impact := "moderate" } ∧
        30 ≤ w.humidity.getD 50 ∧ w.humidity.getD 50 < 50) := by
  unfold humidityFactors
  by_cases h30 : w.humidity.getD 50 < 30
  · simp only [if_pos h30, List.mem_singleton]
    constructor
    · rintro rfl
      exact Or.inl ⟨rfl, h30⟩
    · rintro (⟨rfl, _⟩ | ⟨_, hge, _⟩)
      · rfl
      · linarith
  · by_cases h50 : w.humidity.getD 50 < 50
    · simp only [if_neg h30, if_pos h50, List.mem_singleton]
      constructor
      · rintro rfl
        exact Or.inr ⟨rfl, by linarith, h50⟩
      · rintro (⟨rfl, hlt⟩ | ⟨rfl, _, _⟩)
        · exact absurd hlt h30
        · rfl
    · simp only [if_neg h30, if_neg h50, List.not_mem_nil, false_iff]
      rintro (⟨_, hlt⟩ | ⟨_, _, hlt⟩)
      · exact h30 hlt
      · exact h50 hlt

/-- Membership in the wind rule block. -/
lemma mem_windFactors (w : WeatherData) (f : Factor) :
    f ∈ windFactors w ↔
      (f = { factor := "High Wind Speed", impact := "critical" } ∧
        20 < w.wind_speed.getD 10) ∨
      (f = { factor := "Moderate Wind", impact := "moderate" } ∧
        15 < w.wind_speed.getD 10 ∧ w.wind_speed.getD 10 ≤ 20) := by
  unfold windFactors
  by_cases h20 : w.wind_speed.getD 10 > 20
  · simp only [if_pos h20, List.mem_singleton]
    constructor
    · rintro rfl
      exact Or.inl ⟨rfl, h20⟩
    · rintro (⟨rfl, _⟩ | ⟨_, _, hle⟩)
      · rfl
      · linarith
  · by_cases h15 : w.wind_speed.getD 10 > 15
    · simp only [if_neg h20, if_pos h15, List.mem_singleton]
      constructor
      · rintro rfl
        exact Or.inr ⟨rfl, h15, by linarith⟩
      · rintro (⟨rfl, hgt⟩ | ⟨rfl, _, _⟩)
        · exact absurd hgt h20
        · rfl
    · simp only [if_neg h20, if_neg h15, List.not_mem_nil, false_iff]
      rintro (⟨_, hgt⟩ | ⟨_, hgt, _⟩)
      · exact h20 (by linarith)
      · exact h15 hgt

/-- Membership in the rainfall rule block. -/
lemma mem_rainFactors (w : WeatherData) (f : Factor) :
    f ∈ rainFactors w ↔
      (f = { factor := "Recent Rainfall", impact := "protective" } ∧
        5 < w.rainfall.getD 0) ∨
      (f = { factor := "No Recent Rain", impact := "moderate" } ∧
        w.rainfall.getD 0 < 1) := by
  unfold rainFactors
  by_cases h5 : w.rainfall.getD 0 > 5
  · simp only [if_pos h5, List.mem_singleton]
    constructor
    · rintro rfl
      exact Or.inl ⟨rfl, h5⟩
    · rintro (⟨rfl, _⟩ | ⟨_, hlt⟩)
      · rfl
      · linarith
  · by_cases h1 : w.rainfall.getD 0 < 1
    · simp only [if_neg h5, if_pos h1, List.mem_singleton]
      constructor
      · rintro rfl
        exact Or.inr ⟨rfl, h1⟩
      · rintro (⟨rfl, hgt⟩ | ⟨rfl, _⟩)
        · exact absurd hgt h5
        · rfl
    · simp only [if_neg h5, if_neg h1, List.not_mem_nil, false_iff]
      rintro (⟨_, hgt⟩ | ⟨_, hlt⟩)
      · exact h5 hgt
      · exact h1 hlt

/-- Membership in the fire-weather-index rule block. -/
lemma mem_fwiFactors (w : WeatherData) (f : Factor) :
    f ∈ fwiFactors w ↔
      (f = { factor := "High Fire Weather Index", impact := "critical" } ∧
        15 < w.fwi.getD 10) := by
  unfold fwiFactors
  by_cases h15 : w.fwi.getD 10 > 15
  · simp only [if_pos h15, List.mem_singleton]
    constructor
    · rintro rfl
      exact ⟨rfl, h15⟩
    · rintro ⟨rfl, _⟩
      rfl
  · simp only [if_neg h15, List.not_mem_nil, false_iff]
    rintro ⟨_, hgt⟩
    exact h15 hgt

/-- An observation with temperature exactly 30 (the claimed band edge)
and all other fields inside no rule band. -/
def endpointWeather30 : WeatherData :=
  { temperature := some 30, humidity := some 60, wind_speed := some 10,
    rainfall := some 1, ffmc := none, dmc := none, dc := none,
    isi := none, bui := none, fwi := some 10 }

/-- C8 counterexample: at temperature 30 — inside the claimed inclusive
band 30–35 — the explanation contains no Elevated Temperature factor
(the code requires `temp > 30` strictly), refuting the claim that the
stated bands include their endpoints. -/
theorem c8_claim_counterexample :
    ({ factor := "Elevated Temperature", impact := "high" } : Factor) ∉
      contributingFactors endpointWeather30 ∧
    (30 : ℚ) ≤ (endpointWeather30.temperature.getD 25) ∧
    (endpointWeather30.temperature.getD 25) ≤ 35 := by
  refine ⟨?_, by norm_num [endpointWeather30], by norm_num [endpointWeather30]⟩
  intro hmem
  rw [contributingFactors] at hmem
  simp only [List.mem_append] at hmem
  rcases hmem with ((((h | h) | h) | h) | h)
  · rw [mem_tempFactors] at h
    rcases h with ⟨heq, _⟩ | ⟨_, hgt, _⟩
    · exact absurd heq (by decide)
    · norm_num [endpointWeather30] at hgt
  · rw [mem_humidityFactors] at h
    rcases h with ⟨heq, _⟩ | ⟨heq, _⟩ <;> exact absurd heq (by decide)
  · rw [mem_windFactors] at h
    rcases h with ⟨heq, _⟩ | ⟨heq, _⟩ <;> exact absurd heq (by decide)
  · rw [mem_rainFactors] at h
    rcases h with ⟨heq, _⟩ | ⟨heq, _⟩ <;> exact absurd heq (by decide)
  · rw [mem_fwiFactors] at h
    exact absurd h.1 (by decide)

/-- C8 (amended): the contributing factors are exactly those whose
independently evaluated rules fire, with half-open bands where the code
uses strict comparisons: temperature > 35 → critical High Temperature;
30 < temperature ≤ 35 → high Elevated Temperature; humidity < 30 →
critical Very Low Humidity; 30 ≤ humidity < 50 → moderate Low Humidity;
wind > 20 → critical High Wind Speed; 15 < wind ≤ 20 → moderate Moderate
Wind; rainfall > 5 → protective Recent Rainfall; rainfall < 1 → moderate
No Recent Rain; fire-weather index > 15 → critical High Fire Weather
Index. -/
theorem c8_contributing_factor_rules (w : WeatherData) :
    (({ factor := "High Temperature", impact := "critical" } : Factor) ∈
        contributingFactors w ↔ 35 < w.temperature.getD 25) ∧
    (({ factor := "Elevated Temperature", impact := "high" } : Factor) ∈
        contributingFactors w ↔
      30 < w.temperature.getD 25 ∧ w.temperature.getD 25 ≤ 35) ∧
    (({ factor := "Very Low Humidity", impact := "critical" } : Factor) ∈
        contributingFactors w ↔ w.humidity.getD 50 < 30) ∧
    (({ factor := "Low Humidity", impact := "moderate" } : Factor) ∈
        contributingFactors w ↔
      30 ≤ w.humidity.getD 50 ∧ w.humidity.getD 50 < 50) ∧
    (({ factor := "High Wind Speed", impact := "critical" } : Factor) ∈
        contributingFactors w ↔ 20 < w.wind_speed.getD 10) ∧
    (({ factor := "Moderate Wind", impact := "moderate" } : Factor) ∈
        contributingFactors w ↔
      15 < w.wind_speed.getD 10 ∧ w.wind_speed.getD 10 ≤ 20) ∧
    (({ factor := "Recent Rainfall", impact := "protective" } : Factor) ∈
        contributingFactors w ↔ 5 < w.rainfall.getD 0) ∧
    (({ factor := "No Recent Rain", impact := "moderate" } : Factor) ∈
        contributingFactors w ↔ w.rainfall.getD 0 < 1) ∧
    (({ factor := "High Fire Weather Index", impact := "critical" } : Factor) ∈
        contributingFactors w ↔ 15 < w.fwi.getD 10) := by
  refine ⟨?_, ?_, ?_, ?_, ?_, ?_, ?_, ?_, ?_⟩ <;>
    simp [contributingFactors, List.mem_append, mem_tempFactors,
      mem_humidityFactors, mem_windFactors, mem_rainFactors, mem_fwiFactors,
      Factor.mk.injEq]

/-! ## Claim C10 -/

/-- C10: a simulated observation's rainfall never exceeds 5.0 mm — it is
exactly 0 whenever the simulator's (unrounded) humidity is at most 60,
and otherwise a `uniform(0, 5)` draw rounded to one decimal — so the
protective Recent Rainfall factor, which needs rainfall strictly greater
than 5, never appears in the explanation of a simulated observation.
The hypothesis is the `random.random()` contract: raw samples lie in
`[0, 1)`. -/
theorem c10_recent_rainfall_unreachable (sq : ℚ → ℚ) (hash : String → ℤ)
    (sample : ℤ → ℕ → ℚ) (lat lng : ℚ) (grid_id : String) (σ : RandState)
    (hs : ∀ s i, 0 ≤ sample s i ∧ sample s i < 1) :
    ((generate_simulated_weather hash sample lat lng grid_id σ).1.rainfall ≤ 5) ∧
    (simHumidityRaw hash sample lat grid_id ≤ 60 →
      (generate_simulated_weather hash sample lat lng grid_id σ).1.rainfall = 0) ∧
    ({ factor := "Recent Rainfall", impact := "protective" } : Factor) ∉
      contributingFactors
        (toWeatherData (generate_simulated_weather hash sample lat lng grid_id σ).1
          (generate_fire_weather_indices sq
            (generate_simulated_weather hash sample lat lng grid_id σ).1)) := by
  have hrain : (generate_simulated_weather hash sample lat lng grid_id σ).1.rainfall
      = roundTo 1 (simRainfallRaw hash sample lat grid_id) := rfl
  have hraw0 : 0 ≤ simRainfallRaw hash sample lat grid_id := by
    unfold simRainfallRaw randUniform
    split
    · have := (hs (simSeed hash grid_id) 3).1
      nlinarith
    · norm_num
  have hraw5 : simRainfallRaw hash sample lat grid_id ≤ 5 := by
    unfold simRainfallRaw randUniform
    split
    · have := (hs (simSeed hash grid_id) 3).2
      nlinarith
    · norm_num
  have hle : (generate_simulated_weather hash sample lat lng grid_id σ).1.rainfall ≤ 5 := by
    rw [hrain]
    have h := roundTo_int_bounds 1 0 5 (by exact_mod_cast hraw0) (by exact_mod_cast hraw5)
    exact_mod_cast h.2
  refine ⟨hle, ?_, ?_⟩
  · intro hH
    rw [hrain]
    have hz : simRainfallRaw hash sample lat grid_id = 0 := by
      unfold simRainfallRaw
      rw [if_neg (by push_neg; linarith)]
    rw [hz]
    simpa using roundTo_intCast 1 0
  · intro hmem
    rw [contributingFactors] at hmem
    simp only [List.mem_append] at hmem
    rcases hmem with ((((h | h) | h) | h) | h)
    · rw [mem_tempFactors] at h
      rcases h with ⟨heq, _⟩ | ⟨heq, _⟩ <;> exact absurd heq (by decide)
    · rw [mem_humidityFactors] at h
      rcases h with ⟨heq, _⟩ | ⟨heq, _⟩ <;> exact absurd heq (by decide)
    · rw [mem_windFactors] at h
      rcases h with ⟨heq, _⟩ | ⟨heq, _⟩ <;> exact absurd heq (by decide)
    · rw [mem_rainFactors] at h
      rcases h with ⟨_, hgt⟩ | ⟨heq, _⟩
      · have hsame : (toWeatherData
            (generate_simulated_weather hash sample lat lng grid_id σ).1
            (generate_fire_weather_indices sq
              (generate_simulated_weather hash sample lat lng grid_id σ).1)).rainfall.getD 0 =
            (generate_simulated_weather hash sample lat lng grid_id σ).1.rainfall := rfl
        rw [hsame] at hgt
        linarith
      · exact absurd heq (by decide)
    · rw [mem_fwiFactors] at h
      exact absurd h.1 (by decide)

/-- Witness for C10 at a concrete session (constant `1/2` raw samples,
zero hash). -/
theorem c10_recent_rainfall_unreachable_witness :
    ((generate_simulated_weather (fun _ => 0) (fun _ _ => 1 / 2) 10 20 "amazon_grid_0_0"
        { seedVal := 0, pos := 0 }).1.rainfall ≤ 5) := by
  have h := c10_recent_rainfall_unreachable (fun x => x) (fun _ => 0)
    (fun _ _ => 1 / 2) 10 20 "amazon_grid_0_0" { seedVal := 0, pos := 0 }
    (fun _ _ => by norm_num)
  exact h.1

/-! ## Claim C4 -/

/-- Rounding keeps a value between two bounds that rounding fixes. -/
lemma roundTo_bounds_fix (n : ℕ) (a b x : ℚ) (ha : roundTo n a = a)
    (hb : roundTo n b = b) (hax : a ≤ x) (hxb : x ≤ b) :
    a ≤ roundTo n x ∧ roundTo n x ≤ b := by
  constructor
  · have h := roundTo_mono n hax
    rwa [ha] at h
  · have h := roundTo_mono n hxb
    rwa [hb] at h

/-- The spec's extreme test input: temperature 100, humidity 0. -/
def extremeObservation : Observation :=
  { temperature := 100, humidity := 0, wind_speed := 0, rainfall := 0,
    source := "simulated" }

/-- C4: for every input observation — including extremes such as
temperature 100 and humidity 0 — each derived index is independently
clamped to its documented range before being returned: ffmc ∈ [40, 96],
dmc ∈ [1, 30], dc ∈ [5, 400], isi ∈ [0, 15], bui ∈ [1, 40],
fwi ∈ [0, 25]; and the fwi is the square root (`sq`) of isi × bui before
its clamp.  At the extreme input ffmc, dmc and dc all saturate at their
upper bounds. -/
theorem c4_indices_clamped_ranges (sq : ℚ → ℚ) (o : Observation) :
    (40 ≤ (generate_fire_weather_indices sq o).ffmc ∧
      (generate_fire_weather_indices sq o).ffmc ≤ 96) ∧
    (1 ≤ (generate_fire_weather_indices sq o).dmc ∧
      (generate_fire_weather_indices sq o).dmc ≤ 30) ∧
    (5 ≤ (generate_fire_weather_indices sq o).dc ∧
      (generate_fire_weather_indices sq o).dc ≤ 400) ∧
    (0 ≤ (generate_fire_weather_indices sq o).isi ∧
      (generate_fire_weather_indices sq o).isi ≤ 15) ∧
    (1 ≤ (generate_fire_weather_indices sq o).bui ∧
      (generate_fire_weather_indices sq o).bui ≤ 40) ∧
    (0 ≤ (generate_fire_weather_indices sq o).fwi ∧
      (generate_fire_weather_indices sq o).fwi ≤ 25) ∧
    (generate_fire_weather_indices sq o).fwi =
      roundTo 1 (clampQ 0 25 (sq (isiRaw o * buiRaw o))) ∧
    (generate_fire_weather_indices sq extremeObservation).ffmc = 96 ∧
    (generate_fire_weather_indices sq extremeObservation).dmc = 30 ∧
    (generate_fire_weather_indices sq extremeObservation).dc = 400 := by
  have eff : (generate_fire_weather_indices sq o).ffmc = roundTo 1 (ffmcRaw o) := rfl
  have edm : (generate_fire_weather_indices sq o).dmc = roundTo 1 (dmcRaw o) := rfl
  have edc : (generate_fire_weather_indices sq o).dc = roundTo 1 (dcRaw o) := rfl
  have eis : (generate_fire_weather_indices sq o).isi = roundTo 1 (isiRaw o) := rfl
  have ebu : (generate_fire_weather_indices sq o).bui = roundTo 1 (buiRaw o) := rfl
  have efw : (generate_fire_weather_indices sq o).fwi = roundTo 1 (fwiRaw sq o) := rfl
  refine ⟨?_, ?_, ?_, ?_, ?_, ?_, rfl, ?_, ?_, ?_⟩
  · rw [eff]
    exact roundTo_bounds_fix 1 40 96 _
      (roundTo_eq_self_of_int 1 400 (by norm_num))
      (roundTo_eq_self_of_int 1 960 (by norm_num))
      (le_clampQ 40 96 _) (clampQ_le _ (by norm_num))
  · rw [edm]
    exact roundTo_bounds_fix 1 1 30 _
      (roundTo_eq_self_of_int 1 10 (by norm_num))
      (roundTo_eq_self_of_int 1 300 (by norm_num))
      (le_clampQ 1 30 _) (clampQ_le _ (by norm_num))
  · rw [edc]
    exact roundTo_bounds_fix 1 5 400 _
      (roundTo_eq_self_of_int 1 50 (by norm_num))
      (roundTo_eq_self_of_int 1 4000 (by norm_num))
      (le_clampQ 5 400 _) (clampQ_le _ (by norm_num))
  · rw [eis]
    exact roundTo_bounds_fix 1 0 15 _
      (roundTo_eq_self_of_int 1 0 (by norm_num))
      (roundTo_eq_self_of_int 1 150 (by norm_num))
      (le_clampQ 0 15 _) (clampQ_le _ (by norm_num))
  · rw [ebu]
    exact roundTo_bounds_fix 1 1 40 _
      (roundTo_eq_self_of_int 1 10 (by norm_num))
      (roundTo_eq_self_of_int 1 400 (by norm_num))
      (le_clampQ 1 40 _) (clampQ_le _ (by norm_num))
  · rw [efw]
    exact roundTo_bounds_fix 1 0 25 _
      (roundTo_eq_self_of_int 1 0 (by norm_num))
      (roundTo_eq_self_of_int 1 250 (by norm_num))
      (le_clampQ 0 25 _) (clampQ_le _ (by norm_num))
  · have hv : ffmcRaw extremeObservation = 96 := by
      norm_num [ffmcRaw, extremeObservation, clampQ, max_def, min_def]
    have e : (generate_fire_weather_indices sq extremeObservation).ffmc =
        roundTo 1 (ffmcRaw extremeObservation) := rfl
    rw [e, hv]
    exact roundTo_eq_self_of_int 1 960 (by norm_num)
  · have hv : dmcRaw extremeObservation = 30 := by
      norm_num [dmcRaw, extremeObservation, clampQ, max_def, min_def]
    have e : (generate_fire_weather_indices sq extremeObservation).dmc =
        roundTo 1 (dmcRaw extremeObservation) := rfl
    rw [e, hv]
    exact roundTo_eq_self_of_int 1 300 (by norm_num)
  · have hv : dcRaw extremeObservation = 400 := by
      norm_num [dcRaw, extremeObservation, clampQ, max_def, min_def]
    have e : (generate_fire_weather_indices sq extremeObservation).dc =
        roundTo 1 (dcRaw extremeObservation) := rfl
    rw [e, hv]
    exact roundTo_eq_self_of_int 1 4000 (by norm_num)

/-! ## Claim C3 -/

/-- Length of a row-major double loop. -/
lemma flatMap_range_map_length {α : Type} (f : ℕ → ℕ → α) (n m : ℕ) :
    ((List.range n).flatMap fun i => (List.range m).map (f i)).length = n * m := by
  induction n with
  | zero => simp
  | succ k ih =>
    rw [List.range_succ, List.flatMap_append, List.length_append, ih]
    simp [Nat.succ_mul]

/-- Indexing a row-major double loop: entry `r * m + c` is `f r c`. -/
lemma flatMap_range_map_getElem {α : Type} (f : ℕ → ℕ → α) (n m r c : ℕ)
    (hr : r < n) (hc : c < m) :
    ((List.range n).flatMap fun i => (List.range m).map (f i))[r * m + c]? =
      some (f r c) := by
  induction n with
  | zero => omega
  | succ k ih =>
    rw [List.range_succ, List.flatMap_append]
    rcases Nat.lt_or_ge r k with h | h
    · rw [List.getElem?_append_left]
      · exact ih h
      · rw [flatMap_range_map_length]
        calc r * m + c < r * m + m := by omega
          _ = (r + 1) * m := by ring
          _ ≤ k * m := Nat.mul_le_mul_right m h
    · have hrk : r = k := by omega
      subst hrk
      rw [List.getElem?_append_right (by rw [flatMap_range_map_length]; omega)]
      rw [flatMap_range_map_length]
      have hidx : r * m + c - r * m = c := by omega
      rw [hidx]
      simp [List.getElem?_range hc]

/-- Existence of the 1-D interval index: any `x` in `[0, n·step]` lies in
the `r`-th subinterval `[r·step, (r+1)·step]` for some `r < n`. -/
lemma subinterval_index_exists (n : ℕ) (hn : 0 < n) (step : ℚ)
    (hstep : 0 < step) (x : ℚ) (h0 : 0 ≤ x) (h1 : x ≤ n * step) :
    ∃ r : ℕ, r < n ∧ (r : ℚ) * step ≤ x ∧ x ≤ ((r : ℚ) + 1) * step := by
  have ht0 : 0 ≤ x / step := div_nonneg h0 (le_of_lt hstep)
  have htn : x / step ≤ (n : ℚ) := by
    rw [div_le_iff₀ hstep]
    linarith
  set k : ℤ := ⌊x / step⌋ with hk
  have hk0 : 0 ≤ k := Int.floor_nonneg.mpr ht0
  have hkn : k ≤ (n : ℤ) := by
    have h := Int.floor_le_floor htn
    rwa [Int.floor_natCast] at h
  rcases lt_or_eq_of_le hkn with hlt | heq
  · refine ⟨k.toNat, ?_, ?_, ?_⟩
    · omega
    · have hfl : (k : ℚ) ≤ x / step := Int.floor_le _
      have : ((k.toNat : ℤ) : ℚ) = (k : ℚ) := by
        congr 1
        omega
      rw [show ((k.toNat : ℕ) : ℚ) = ((k.toNat : ℤ) : ℚ) by push_cast; ring, this]
      rw [← le_div_iff₀ hstep]
      exact hfl
    · have hfl : x / step < (k : ℚ) + 1 := Int.lt_floor_add_one _
      have hcast : ((k.toNat : ℕ) : ℚ) = (k : ℚ) := by
        have : ((k.toNat : ℤ) : ℚ) = (k : ℚ) := by
          congr 1
          omega
        rw [← this]
        push_cast
        ring
      rw [hcast]
      have := (div_lt_iff₀ hstep).mp hfl
      linarith
  · have hxn : x = n * step := by
      have hge : (n : ℚ) ≤ x / step := by
        have hnk : ((n : ℤ) : ℚ) ≤ x / step := Int.le_floor.mp (le_of_eq heq.symm)
        exact_mod_cast hnk
      have hnx : (n : ℚ) * step ≤ x := by
        rw [← le_div_iff₀ hstep]
        exact hge
      linarith
    have hcast : ((n - 1 : ℕ) : ℚ) = (n : ℚ) - 1 := by
      have h1n : (1 : ℕ) ≤ n := hn
      push_cast [Nat.cast_sub h1n]
      ring
    refine ⟨n - 1, by omega, ?_, ?_⟩
    · rw [hcast, hxn]
      nlinarith
    · rw [hcast, hxn]
      nlinarith

/-- Distinct descending 1-D cells have disjoint open interiors. -/
lemma desc_intervals_disjoint (N step : ℚ) (hstep : 0 < step) {i j : ℕ}
    (hij : i ≠ j) (x : ℚ) :
    ¬(N - (i : ℚ) * step - step < x ∧ x < N - (i : ℚ) * step ∧
      N - (j : ℚ) * step - step < x ∧ x < N - (j : ℚ) * step) := by
  rintro ⟨h1, h2, h3, h4⟩
  rcases Nat.lt_or_ge i j with h | h
  · have hc : (i : ℚ) + 1 ≤ (j : ℚ) := by exact_mod_cast h
    nlinarith
  · have hj : j < i := by omega
    have hc : (j : ℚ) + 1 ≤ (i : ℚ) := by exact_mod_cast hj
    nlinarith

/-- Distinct ascending 1-D cells have disjoint open interiors. -/
lemma asc_intervals_disjoint (W step : ℚ) (hstep : 0 < step) {i j : ℕ}
    (hij : i ≠ j) (x : ℚ) :
    ¬(W + (i : ℚ) * step < x ∧ x < W + (i : ℚ) * step + step ∧
      W + (j : ℚ) * step < x ∧ x < W + (j : ℚ) * step + step) := by
  rintro ⟨h1, h2, h3, h4⟩
  rcases Nat.lt_or_ge i j with h | h
  · have hc : (i : ℚ) + 1 ≤ (j : ℚ) := by exact_mod_cast h
    nlinarith
  · have hj : j < i := by omega
    have hc : (j : ℚ) + 1 ≤ (i : ℚ) := by exact_mod_cast hj
    nlinarith

/-- Unfolding membership in the generated grid list. -/
lemma mem_gridsOf {cosD : ℚ → ℚ} {rid : String} {reg : ForestRegion}
    {cell : GridCell} :
    cell ∈ gridsOf cosD rid reg ↔
      ∃ row col, row < reg.grid_rows ∧ col < reg.grid_cols ∧
        cell = cellOf cosD rid reg row col := by
  unfold gridsOf
  simp only [List.mem_flatMap, List.mem_map, List.mem_range]
  constructor
  · rintro ⟨row, hrow, col, hcol, rfl⟩
    exact ⟨row, col, hrow, hcol, rfl⟩
  · rintro ⟨row, col, hrow, hcol, rfl⟩
    exact ⟨row, hrow, col, hcol, rfl⟩

/-- The C3 tiling property for one region: exactly `rows × cols` cells
in row-major order with the documented edge formulas, the cells cover
the region's bounding box, and distinct cells have disjoint open
interiors. -/
def TilesRegion (cosD : ℚ → ℚ) (rid : String) (reg : ForestRegion) : Prop :=
  (gridsOf cosD rid reg).length = reg.grid_rows * reg.grid_cols ∧
  (∀ row col, row < reg.grid_rows → col < reg.grid_cols →
    (gridsOf cosD rid reg)[row * reg.grid_cols + col]? =
      some (cellOf cosD rid reg row col) ∧
    (cellOf cosD rid reg row col).bounds.north =
      reg.bounds.north - row * latStep reg ∧
    (cellOf cosD rid reg row col).bounds.south =
      reg.bounds.north - row * latStep reg - latStep reg ∧
    (cellOf cosD rid reg row col).bounds.west =
      reg.bounds.west + col * lngStep reg ∧
    (cellOf cosD rid reg row col).bounds.east =
      reg.bounds.west + col * lngStep reg + lngStep reg) ∧
  (∀ lat lng, reg.bounds.south ≤ lat → lat ≤ reg.bounds.north →
    reg.bounds.west ≤ lng → lng ≤ reg.bounds.east →
    ∃ cell ∈ gridsOf cosD rid reg,
      cell.bounds.south ≤ lat ∧ lat ≤ cell.bounds.north ∧
      cell.bounds.west ≤ lng ∧ lng ≤ cell.bounds.east) ∧
  (∀ c1 ∈ gridsOf cosD rid reg, ∀ c2 ∈ gridsOf cosD rid reg, c1 ≠ c2 →
    ∀ lat lng, ¬(c1.bounds.south < lat ∧ lat < c1.bounds.north ∧
      c1.bounds.west < lng ∧ lng < c1.bounds.east ∧
      c2.bounds.south < lat ∧ lat < c2.bounds.north ∧
      c2.bounds.west < lng ∧ lng < c2.bounds.east))

/-- Any region with a nondegenerate bounding box and positive partition
arity is tiled exactly by its generated grid. -/
lemma tilesRegion_of_bounds (cosD : ℚ → ℚ) (rid : String)
    (reg : ForestRegion) (hns : reg.bounds.south < reg.bounds.north)
    (hwe : reg.bounds.west < reg.bounds.east) (hrows : 0 < reg.grid_rows)
    (hcols : 0 < reg.grid_cols) : TilesRegion cosD rid reg := by
  have hrq : (0 : ℚ) < reg.grid_rows := by exact_mod_cast hrows
  have hcq : (0 : ℚ) < reg.grid_cols := by exact_mod_cast hcols
  have hls : 0 < latStep reg := div_pos (by linarith) hrq
  have hcs : 0 < lngStep reg := div_pos (by linarith) hcq
  have hrowspan : (reg.grid_rows : ℚ) * latStep reg =
      reg.bounds.north - reg.bounds.south := by
    unfold latStep
    field_simp
  have hcolspan : (reg.grid_cols : ℚ) * lngStep reg =
      reg.bounds.east - reg.bounds.west := by
    unfold lngStep
    field_simp
  refine ⟨flatMap_range_map_length _ _ _, ?_, ?_, ?_⟩
  · intro row col hr hc
    exact ⟨flatMap_range_map_getElem _ _ _ row col hr hc, rfl, rfl, rfl, rfl⟩
  · intro lat lng h1 h2 h3 h4
    obtain ⟨row, hrow, hr1, hr2⟩ := subinterval_index_exists reg.grid_rows
      hrows (latStep reg) hls (reg.bounds.north - lat) (by linarith)
      (by rw [hrowspan]; linarith)
    obtain ⟨col, hcol, hc1, hc2⟩ := subinterval_index_exists reg.grid_cols
      hcols (lngStep reg) hcs (lng - reg.bounds.west) (by linarith)
      (by rw [hcolspan]; linarith)
    have hexp1 : ((row : ℚ) + 1) * latStep reg =
        (row : ℚ) * latStep reg + latStep reg := by ring
    have hexp2 : ((col : ℚ) + 1) * lngStep reg =
        (col : ℚ) * lngStep reg + lngStep reg := by ring
    refine ⟨cellOf cosD rid reg row col,
      mem_gridsOf.mpr ⟨row, col, hrow, hcol, rfl⟩, ?_, ?_, ?_, ?_⟩
    · show reg.bounds.north - row * latStep reg - latStep reg ≤ lat
      rw [hexp1] at hr2
      linarith
    · show lat ≤ reg.bounds.north - row * latStep reg
      linarith
    · show reg.bounds.west + col * lngStep reg ≤ lng
      linarith
    · show lng ≤ reg.bounds.west + col * lngStep reg + lngStep reg
      rw [hexp2] at hc2
      linarith
  · intro c1 hm1 c2 hm2 hne lat lng hcontra
    obtain ⟨r1, k1, hr1, hk1, rfl⟩ := mem_gridsOf.mp hm1
    obtain ⟨r2, k2, hr2, hk2, rfl⟩ := mem_gridsOf.mp hm2
    obtain ⟨ha, hb, hc, hd, he, hf, hg, hh⟩ := hcontra
    have hne2 : r1 ≠ r2 ∨ k1 ≠ k2 := by
      by_contra hcon
      push_neg at hcon
      exact hne (by rw [hcon.1, hcon.2])
    rcases hne2 with h | h
    · exact desc_intervals_disjoint reg.bounds.north (latStep reg) hls h lat
        ⟨ha, hb, he, hf⟩
    · exact asc_intervals_disjoint reg.bounds.west (lngStep reg) hcs h lng
        ⟨hc, hd, hg, hh⟩

/-- C3: for every registered region, partitioning returns exactly
`rows × cols` cells in row-major order with the documented north, south,
west and east edge formulas, and the cells' bounding boxes exactly tile
the region's bounding box: every point of the region box lies in some
cell box, and no point lies strictly inside two distinct cells. -/
theorem c3_partition_tiles_region (cosD : ℚ → ℚ) (rid : String)
    (reg : ForestRegion) (hmem : (rid, reg) ∈ FOREST_REGIONS) :
    TilesRegion cosD rid reg := by
  simp only [FOREST_REGIONS, List.mem_cons, List.not_mem_nil, or_false,
    Prod.mk.injEq] at hmem
  rcases hmem with ⟨h1, rfl⟩ | ⟨h1, rfl⟩ | ⟨h1, rfl⟩ | ⟨h1, rfl⟩ <;>
    apply tilesRegion_of_bounds <;>
    norm_num [amazonRegion, californiaRegion, australiaRegion,
      mediterraneanRegion]

/-- Witness for C3 at the California region. -/
theorem c3_partition_tiles_region_witness :
    TilesRegion (fun _ => 1) "california" californiaRegion :=
  c3_partition_tiles_region (fun _ => 1) "california" californiaRegion
    (by simp [FOREST_REGIONS])

/-! ## Claim C9 -/

/-- A generated cell's stored area in closed form: the step sizes times
111² times the cosine factor at the cell's mean latitude. -/
lemma cell_area_eq (cosD : ℚ → ℚ) (rid : String) (reg : ForestRegion)
    (row col : ℕ) (hls : 0 < latStep reg) (hcs : 0 < lngStep reg) :
    (cellOf cosD rid reg row col).area_km2 =
      roundTo 2 (latStep reg * 111 * lngStep reg * 111 *
        cosD (reg.bounds.north - row * latStep reg - latStep reg / 2)) := by
  show roundTo 2 (calculate_grid_area cosD (cellOf cosD rid reg row col).bounds) = _
  congr 1
  have e : calculate_grid_area cosD (cellOf cosD rid reg row col).bounds =
      |(reg.bounds.north - row * latStep reg) -
        (reg.bounds.north - row * latStep reg - latStep reg)| * 111 *
      |(reg.bounds.west + col * lngStep reg + lngStep reg) -
        (reg.bounds.west + col * lngStep reg)| *
      (111 * cosD (((reg.bounds.north - row * latStep reg) +
        (reg.bounds.north - row * latStep reg - latStep reg)) / 2)) := rfl
  rw [e]
  have e1 : (reg.bounds.north - row * latStep reg) -
      (reg.bounds.north - row * latStep reg - latStep reg) = latStep reg := by
    ring
  have e2 : (reg.bounds.west + col * lngStep reg + lngStep reg) -
      (reg.bounds.west + col * lngStep reg) = lngStep reg := by
    ring
  have e3 : ((reg.bounds.north - row * latStep reg) +
      (reg.bounds.north - row * latStep reg - latStep reg)) / 2 =
      reg.bounds.north - row * latStep reg - latStep reg / 2 := by
    ring
  rw [e1, e2, e3, abs_of_pos hls, abs_of_pos hcs]
  ring

/-- The region's own area in closed form. -/
lemma region_area_eq (cosD : ℚ → ℚ) (reg : ForestRegion)
    (hns : reg.bounds.south < reg.bounds.north)
    (hwe : reg.bounds.west < reg.bounds.east) :
    calculate_grid_area cosD reg.bounds =
      (reg.bounds.north - reg.bounds.south) * 111 *
        (reg.bounds.east - reg.bounds.west) * 111 *
        cosD ((reg.bounds.north + reg.bounds.south) / 2) := by
  unfold calculate_grid_area
  rw [abs_of_pos (by linarith), abs_of_pos (by linarith)]
  ring

/-- Numeric core of C9: a rounded scaled cosine is positive and below
the region total, given the cosine bounds and a size margin. -/
lemma area_bounds_helper (K Kreg cu cr : ℚ) (hcu1 : 1 / 2 ≤ cu)
    (hcu2 : cu ≤ 1) (hcr : 1 / 2 ≤ cr) (hK : 1 / 100 < K)
    (hmargin : K + 1 / 200 < Kreg / 2) :
    0 < roundTo 2 (K * cu) ∧ roundTo 2 (K * cu) < Kreg * cr := by
  have h200 : (1 : ℚ) / (2 * (10 : ℚ) ^ 2) = 1 / 200 := by norm_num
  have hlow := sub_le_roundTo 2 (K * cu)
  have hup := roundTo_le_add 2 (K * cu)
  rw [h200] at hlow hup
  constructor
  · nlinarith
  · nlinarith

/-- C9 for any one region satisfying the size and latitude-band side
conditions (met by all four registered regions). -/
lemma c9_general (cosD : ℚ → ℚ)
    (hpos : ∀ x : ℚ, -45 ≤ x → x ≤ 45 → 1 / 2 ≤ cosD x)
    (hone : ∀ x : ℚ, cosD x ≤ 1) (rid : String) (reg : ForestRegion)
    (hns : reg.bounds.south < reg.bounds.north)
    (hwe : reg.bounds.west < reg.bounds.east)
    (hrows : 0 < reg.grid_rows) (hcols : 0 < reg.grid_cols)
    (hS : -45 ≤ reg.bounds.south) (hN : reg.bounds.north ≤ 45)
    (hK : 1 / 100 < latStep reg * 111 * lngStep reg * 111)
    (hmargin : latStep reg * 111 * lngStep reg * 111 + 1 / 200 <
      (reg.bounds.north - reg.bounds.south) * 111 *
        (reg.bounds.east - reg.bounds.west) * 111 / 2) :
    ∀ cell ∈ gridsOf cosD rid reg,
      0 < cell.area_km2 ∧ cell.area_km2 < calculate_grid_area cosD reg.bounds := by
  intro cell hcell
  obtain ⟨row, col, hrow, hcol, rfl⟩ := mem_gridsOf.mp hcell
  have hrq : (0 : ℚ) < reg.grid_rows := by exact_mod_cast hrows
  have hcq : (0 : ℚ) < reg.grid_cols := by exact_mod_cast hcols
  have hls : 0 < latStep reg := div_pos (by linarith) hrq
  have hcs : 0 < lngStep reg := div_pos (by linarith) hcq
  have hrowspan : (reg.grid_rows : ℚ) * latStep reg =
      reg.bounds.north - reg.bounds.south := by
    unfold latStep
    field_simp
  have hrow1 : (row : ℚ) + 1 ≤ (reg.grid_rows : ℚ) := by exact_mod_cast hrow
  have hrow0 : (0 : ℚ) ≤ (row : ℚ) := Nat.cast_nonneg row
  have havg1 : -45 ≤ reg.bounds.north - row * latStep reg - latStep reg / 2 := by
    nlinarith
  have havg2 : reg.bounds.north - row * latStep reg - latStep reg / 2 ≤ 45 := by
    nlinarith
  have hcu1 := hpos _ havg1 havg2
  have hcu2 := hone (reg.bounds.north - row * latStep reg - latStep reg / 2)
  have hcr := hpos ((reg.bounds.north + reg.bounds.south) / 2)
    (by linarith) (by linarith)
  have hhelp := area_bounds_helper (latStep reg * 111 * lngStep reg * 111)
    ((reg.bounds.north - reg.bounds.south) * 111 *
      (reg.bounds.east - reg.bounds.west) * 111)
    (cosD (reg.bounds.north - row * latStep reg - latStep reg / 2))
    (cosD ((reg.bounds.north + reg.bounds.south) / 2))
    hcu1 hcu2 hcr hK hmargin
  rw [cell_area_eq cosD rid reg row col hls hcs,
    region_area_eq cosD reg hns hwe]
  exact hhelp

/-- C9: for every registered region and every cell of its generated
grid, the cell's stored area (the |Δlat|·111·|Δlng|·111·cos(mean
latitude) approximation rounded to two decimals) is strictly positive
and strictly smaller than the region's own area computed by the same
formula over the region's bounding box.  `cosD` abstracts
`cos ∘ radians`; the hypotheses state the two cosine facts used —
`cos x ≤ 1` everywhere and `cos x ≥ 1/2` for `|x| ≤ 45°` — both true of
the real cosine. -/
theorem c9_cell_area_positive_and_below_region (cosD : ℚ → ℚ)
    (hpos : ∀ x : ℚ, -45 ≤ x → x ≤ 45 → 1 / 2 ≤ cosD x)
    (hone : ∀ x : ℚ, cosD x ≤ 1) (rid : String) (reg : ForestRegion)
    (hmem : (rid, reg) ∈ FOREST_REGIONS) :
    ∀ cell ∈ gridsOf cosD rid reg,
      0 < cell.area_km2 ∧ cell.area_km2 < calculate_grid_area cosD reg.bounds := by
  simp only [FOREST_REGIONS, List.mem_cons, List.not_mem_nil, or_false,
    Prod.mk.injEq] at hmem
  rcases hmem with ⟨h1, rfl⟩ | ⟨h1, rfl⟩ | ⟨h1, rfl⟩ | ⟨h1, rfl⟩ <;>
    apply c9_general cosD hpos hone <;>
    norm_num [latStep, lngStep, amazonRegion, californiaRegion,
      australiaRegion, mediterraneanRegion]

/-- Witness for C9: the constant `1/2` cosine (admissible for the stated
hypotheses) at the California region's first cell. -/
theorem c9_cell_area_positive_and_below_region_witness :
    0 < (cellOf (fun _ => 1 / 2) "california" californiaRegion 0 0).area_km2 ∧
    (cellOf (fun _ => 1 / 2) "california" californiaRegion 0 0).area_km2 <
      calculate_grid_area (fun _ => 1 / 2) californiaRegion.bounds :=
  c9_cell_area_positive_and_below_region (fun _ => 1 / 2)
    (fun _ _ _ => le_refl (1 / 2 : ℚ)) (fun _ => by norm_num)
    "california" californiaRegion (by simp [FOREST_REGIONS])
    (cellOf (fun _ => 1 / 2) "california" californiaRegion 0 0)
    (mem_gridsOf.mpr ⟨0, 0, by norm_num [californiaRegion],
      by norm_num [californiaRegion], rfl⟩)
